import Mathlib

/-!
Shallow embedding of the notmuch-rs wrapper layer (src/database.rs and
src/directory.rs).

Native pointers are modelled as natural numbers, with 0 playing the role of the
C null pointer.  Each wrapper function is embedded as a pure function that takes
the outcome of the native call it performs as an explicit argument (the native
library itself is an external collaborator) and returns what the Rust function
returns.  A Rust panic (an `unwrap` of `None` or `Err`) is modelled by a
dedicated constructor of the result type.  Functions that issue native calls
with side effects also return the list of native calls they make, so that
release-exactly-once properties can be stated over those lists.
-/

/-- A native pointer; 0 models the C null pointer. -/
abbrev Ptr := Nat

/-- Modelled from the spec: error.rs is not among the sources; section 7 of the
design gives the error-kind taxonomy carried by the structured error type. -/
inductive ErrorKind where
  | invalidArgument
  | notFound
  | permissionOrLock
  | versionMismatch
  | backendFailure (code : Nat)
  deriving DecidableEq

/-- Modelled from the spec: ffi.rs is not among the sources; a native status is
either success or carries an error kind (section 6, error surface). -/
inductive Status where
  | success
  | error (e : ErrorKind)
  deriving DecidableEq

/-- The outcome of a Rust wrapper function: `Ok`, `Err` with the structured
error, or a panic raised by an `unwrap`. -/
inductive Ret (α : Type) where
  | ok (a : α)
  | err (e : ErrorKind)
  | panicked
  deriving DecidableEq

/-- `try!(... .as_result())`: a success status continues with the unit value,
an error status returns early with that error. -/
def asRet : Status → Ret Unit
  | Status.success => Ret.ok ()
  | Status.error e => Ret.err e

/-- State of the UTF-8 validation automaton: how many continuation bytes are
still expected, and the allowed range for the next continuation byte. -/
structure Utf8State where
  pending : Nat
  lo : Nat
  hi : Nat
  deriving DecidableEq

/-- Classification of a leading UTF-8 byte (RFC 3629 well-formedness table):
the automaton state it starts, or none for an invalid leading byte. -/
def utf8Start (b : Nat) : Option Utf8State :=
  if b ≤ 0x7F then some ⟨0, 0, 0⟩
  else if 0xC2 ≤ b ∧ b ≤ 0xDF then some ⟨1, 0x80, 0xBF⟩
  else if b = 0xE0 then some ⟨2, 0xA0, 0xBF⟩
  else if b = 0xED then some ⟨2, 0x80, 0x9F⟩
  else if 0xE1 ≤ b ∧ b ≤ 0xEF then some ⟨2, 0x80, 0xBF⟩
  else if b = 0xF0 then some ⟨3, 0x90, 0xBF⟩
  else if 0xF1 ≤ b ∧ b ≤ 0xF3 then some ⟨3, 0x80, 0xBF⟩
  else if b = 0xF4 then some ⟨3, 0x80, 0x8F⟩
  else none

/-- One step of the UTF-8 validation automaton. -/
def utf8Step (st : Option Utf8State) (b : Nat) : Option Utf8State :=
  match st with
  | none => none
  | some s =>
    if s.pending = 0 then utf8Start b
    else if s.lo ≤ b ∧ b ≤ s.hi then some ⟨s.pending - 1, 0x80, 0xBF⟩
    else none

/-- Validity of a byte sequence as UTF-8: models the check performed by the
standard str conversions (`Path::to_str`, `CStr::to_str`). -/
def utf8Valid (bs : List Nat) : Bool :=
  match bs.foldl utf8Step (some ⟨0, 0, 0⟩) with
  | some s => s.pending == 0
  | none => false

/-- `.to_str()` on a native C string (utils::ToStr, via CStr::to_str): the
borrowed bytes when they are valid UTF-8, none otherwise. -/
def cstrToStr (bs : List Nat) : Option (List Nat) :=
  if utf8Valid bs then some bs else none

/-- `Path::to_str`: the path bytes when they are valid UTF-8. -/
def pathToStr (p : List Nat) : Option (List Nat) :=
  if utf8Valid p then some p else none

/-- `CString::new`: fails exactly on an interior NUL byte. -/
def cstringNew (s : List Nat) : Option (List Nat) :=
  if s.contains 0 then none else some s

/-- `CString::new(path.as_ref().to_str().unwrap()).unwrap()`, without the
panics: some encoded path when both conversions succeed, none when either
unwrap would panic. -/
def encodePath (p : List Nat) : Option (List Nat) :=
  (pathToStr p).bind cstringNew

/-- src/database.rs: the guard owning the database handle.  It derives only
Debug in the source — no Copy and no Clone — and its Drop impl calls
notmuch_database_destroy on the owned pointer. -/
structure DatabasePtr where
  ptr : Ptr
  deriving DecidableEq

/-- src/database.rs: the Database root resource, holding its guard. -/
structure Database where
  handle : DatabasePtr
  deriving DecidableEq

/-- src/directory.rs: the guard owning a directory handle; its Drop impl calls
notmuch_directory_destroy.  Derives only Debug: no Copy, no Clone. -/
structure DirectoryPtr where
  ptr : Ptr
  deriving DecidableEq

/-- supercow::Phantomcow, the ownership marker of a derived resource: either a
scoped borrow of the owner or shared reference-counted co-ownership (spec
sections 3 and 4.2; the supercow crate is external to the sources).  The owner
is identified here by its database handle pointer. -/
inductive OwnershipMarker where
  | borrowed (owner : Ptr)
  | shared (owner : Ptr)
  deriving DecidableEq

/-- src/directory.rs: a Directory pairs its guard with the ownership marker of
the Database that produced it. -/
structure Directory where
  handle : DirectoryPtr
  marker : OwnershipMarker
  deriving DecidableEq

/-- src/directory.rs Directory::from_ptr: wraps the given pointer in a guard
unconditionally — there is no null check in from_ptr itself — together with
the ownership marker for the owner. -/
def Directory.from_ptr (ptr : Ptr) (owner : OwnershipMarker) : Directory :=
  { handle := { ptr := ptr }, marker := owner }

/-- Guard for a query handle (query.rs is not among the sources). -/
structure QueryPtr where
  ptr : Ptr
  deriving DecidableEq

/-- A Query pairs its guard with the marker of the owning Database. -/
structure Query where
  handle : QueryPtr
  marker : OwnershipMarker
  deriving DecidableEq

/-- Modelled from the spec: query.rs is not among the sources.  Section 2 says
every derived-resource type reuses the same guard/marker pair, and the call
site `Ok(Query::from_ptr(query, self))` in Database::create_query shows that
from_ptr returns a Query directly; it therefore mirrors Directory::from_ptr,
wrapping the pointer unconditionally. -/
def Query.from_ptr (ptr : Ptr) (owner : OwnershipMarker) : Query :=
  { handle := { ptr := ptr }, marker := owner }

/-- Guard for a tags handle (tags.rs is not among the sources). -/
structure TagsPtr where
  ptr : Ptr
  deriving DecidableEq

/-- A Tags sequence pairs its guard with the marker of its owner. -/
structure Tags where
  handle : TagsPtr
  marker : OwnershipMarker
  deriving DecidableEq

/-- Modelled from the spec: tags.rs is not among the sources; as with Query,
Tags::from_ptr mirrors Directory::from_ptr and wraps unconditionally. -/
def Tags.from_ptr (ptr : Ptr) (owner : OwnershipMarker) : Tags :=
  { handle := { ptr := ptr }, marker := owner }

/-- The native calls with lifecycle side effects issued by this layer. -/
inductive NativeCall where
  | databaseDestroy (p : Ptr)
  | databaseClose (p : Ptr)
  | directoryDestroy (p : Ptr)
  deriving DecidableEq

/-- impl Drop for DatabasePtr: exactly one notmuch_database_destroy of the
owned handle, and nothing else. -/
def DatabasePtr.drop (g : DatabasePtr) : List NativeCall :=
  [NativeCall.databaseDestroy g.ptr]

/-- impl Drop for DirectoryPtr: exactly one notmuch_directory_destroy of the
owned handle, and nothing else. -/
def DirectoryPtr.drop (g : DirectoryPtr) : List NativeCall :=
  [NativeCall.directoryDestroy g.ptr]

/-- Rust affine-value semantics for a type with neither Copy nor Clone: over
its whole lifetime the guard is moved any number of times — a move transfers
the value, emits no native call and duplicates nothing — and its destructor
runs exactly once, at the end of its life. -/
def DatabasePtr.lifetimeCalls (g : DatabasePtr) (moves : Nat) : List NativeCall :=
  (List.replicate moves ([] : List NativeCall)).flatten ++ DatabasePtr.drop g

/-- The same affine lifetime for a DirectoryPtr guard. -/
def DirectoryPtr.lifetimeCalls (g : DirectoryPtr) (moves : Nat) : List NativeCall :=
  (List.replicate moves ([] : List NativeCall)).flatten ++ DirectoryPtr.drop g

/-- Dropping a Database runs the drop of its handle field. -/
def Database.drop (db : Database) : List NativeCall :=
  DatabasePtr.drop db.handle

/-- ffi::DatabaseMode, re-exported by src/database.rs (spec section 6). -/
inductive DatabaseMode where
  | readOnly
  | readWrite
  deriving DecidableEq

/-- Outcome of a native call that returns a status and writes a handle through
an out-parameter (notmuch_database_create / _open / _get_directory). -/
structure NativeOut where
  status : Status
  outPtr : Ptr
  deriving DecidableEq

/-- Database::create: encodes the path — panicking on invalid UTF-8 or an
interior NUL — then try!-checks the native status and wraps the handle the
native call wrote, with no null check on it. -/
def Database.create (path : List Nat) (native : NativeOut) : Ret Database :=
  match encodePath path with
  | none => Ret.panicked
  | some _ =>
    match native.status with
    | Status.success => Ret.ok { handle := { ptr := native.outPtr } }
    | Status.error e => Ret.err e

/-- Database::open: same shape as create, with the mode forwarded to the
native call. -/
def Database.«open» (path : List Nat) (mode : DatabaseMode) (native : NativeOut) :
    Ret Database :=
  match encodePath path with
  | none => Ret.panicked
  | some _ =>
    match native.status with
    | Status.success => Ret.ok { handle := { ptr := native.outPtr } }
    | Status.error e => Ret.err e

/-- Database::close(&mut self): issues notmuch_database_close on the handle
and try!-checks its status.  The Database is borrowed, not consumed, and the
handle field is never assigned, so the value it leaves behind is the one it
received.  Returns the native calls issued, the database as left, and the Rust
return value. -/
def Database.close (db : Database) (native : Status) :
    List NativeCall × Database × Ret Unit :=
  ([NativeCall.databaseClose db.handle.ptr], db, asRet native)

/-- Database::_compact: encodes the path (unwrap panics on failure), encodes
the backup path when one is supplied (unwrap panics on failure), then
try!-checks the native compaction status.  Whether a status closure was
supplied does not change the returned value. -/
def Database._compact (path : List Nat) (backupPath : Option (List Nat))
    (hasStatus : Bool) (native : Status) : Ret Unit :=
  match encodePath path with
  | none => Ret.panicked
  | some _ =>
    match backupPath with
    | some bp =>
      match encodePath bp with
      | none => Ret.panicked
      | some _ => asRet native
    | none => asRet native

/-- Database::compact: _compact with status = None. -/
def Database.compact (path : List Nat) (backupPath : Option (List Nat))
    (native : Status) : Ret Unit :=
  Database._compact path backupPath false native

/-- Database::compact_with_status: _compact with status = Some(closure). -/
def Database.compact_with_status (path : List Nat) (backupPath : Option (List Nat))
    (native : Status) : Ret Unit :=
  Database._compact path backupPath true native

/-- Database::path: converts the native-reported root path bytes with
to_str().unwrap(): some path on valid UTF-8, none (panic) otherwise.  There is
no error return in the signature. -/
def Database.path (db : Database) (native : List Nat) : Option (List Nat) :=
  cstrToStr native

/-- Database::_upgrade: try!-checks the native upgrade status; whether a
progress closure was supplied does not change the returned value. -/
def Database._upgrade (db : Database) (hasStatus : Bool) (native : Status) :
    Ret Unit :=
  asRet native

/-- Database::upgrade: _upgrade with status = None. -/
def Database.upgrade (db : Database) (native : Status) : Ret Unit :=
  Database._upgrade db false native

/-- Database::upgrade_with_status: _upgrade with status = Some(closure). -/
def Database.upgrade_with_status (db : Database) (native : Status) : Ret Unit :=
  Database._upgrade db true native

/-- Database::directory: encodes the path (unwrap panics on failure),
try!-checks the native status, then returns Ok(None) for a null directory
handle and otherwise wraps the handle with this database as borrowed owner. -/
def Database.directory (db : Database) (path : List Nat) (native : NativeOut) :
    Ret (Option Directory) :=
  match encodePath path with
  | none => Ret.panicked
  | some _ =>
    match native.status with
    | Status.error e => Ret.err e
    | Status.success =>
      if native.outPtr = 0 then Ret.ok none
      else
        Ret.ok (some (Directory.from_ptr native.outPtr
          (OwnershipMarker.borrowed db.handle.ptr)))

/-- Database::create_query: encodes the query string (CString::new unwrap
panics on an interior NUL) and wraps whatever pointer notmuch_query_create
returned — even null — in Ok, with no status and no null check. -/
def Database.create_query (db : Database) (queryString : List Nat) (native : Ptr) :
    Ret Query :=
  match cstringNew queryString with
  | none => Ret.panicked
  | some _ => Ret.ok (Query.from_ptr native (OwnershipMarker.borrowed db.handle.ptr))

/-- Database::all_tags: wraps whatever pointer notmuch_database_get_all_tags
returned — even null — in Ok, unconditionally. -/
def Database.all_tags (db : Database) (native : Ptr) : Ret Tags :=
  Ret.ok (Tags.from_ptr native (OwnershipMarker.borrowed db.handle.ptr))

/-- A Rust FnMut(&str) closure: its captured state and the step it performs on
each call. -/
structure FnMutStr (σ : Type) where
  state : σ
  call : List Nat → σ → σ

/-- A Rust FnMut(f64) closure.  The IEEE double progress argument is modelled
by an abstract type δ, since the wrapper only forwards it unchanged (the
`progress as f64` cast is the identity). -/
structure FnMutF64 (τ δ : Type) where
  state : τ
  call : δ → τ → τ

/-- One native invocation of the wrapper nested in Database::_compact: the
context pointer is cast back to the closure (modelled by a heap lookup; a
pointer to no live closure is undefined behaviour, none), the message is
decoded with to_str().unwrap() (panic on invalid UTF-8), and the closure is
invoked exactly once with the decoded text.  The returned list records the
synchronous closure invocations performed during this one wrapper call. -/
def compactWrapper {σ : Type} (heap : Ptr → Option (FnMutStr σ))
    (message : List Nat) (ctx : Ptr) : Option (FnMutStr σ × List (List Nat)) :=
  match heap ctx with
  | none => none
  | some c =>
    match cstrToStr message with
    | none => none
    | some msg => some ({ c with state := c.call msg c.state }, [msg])

/-- One native invocation of the wrapper nested in Database::_upgrade: recover
the closure from the context pointer and invoke it exactly once with the
progress value. -/
def upgradeWrapper {τ δ : Type} (heap : Ptr → Option (FnMutF64 τ δ))
    (ctx : Ptr) (progress : δ) : Option (FnMutF64 τ δ × List δ) :=
  match heap ctx with
  | none => none
  | some c => some ({ c with state := c.call progress c.state }, [progress])

/-- Events in the evaluation of a _compact or _upgrade call that was given a
status closure: stack-slot lifetimes of the closure storage, and the blocking
native call with its trampoline invocations. -/
inductive StackEv where
  | allocSlot (s : Nat)
  | takeAddr (s : Nat)
  | freeSlot (s : Nat)
  | nativeStart
  | trampolineDeref (s : Nat)
  | nativeEnd
  deriving DecidableEq

/-- Evaluation-order trace of Database::_compact when status is Some(f) and
the native library invokes the status callback ncalls times.  The context
argument `status.map_or(ptr::null_mut(), |f| &f as *const _ as *mut c_void)`
moves the closure into the by-value parameter f of the map_or lambda
(allocSlot 0: storage local to that lambda activation), takes the address of f
(takeAddr 0), and drops f when the lambda body ends (freeSlot 0) — all during
the evaluation of the arguments of notmuch_database_compact, before the
blocking native call is entered (nativeStart).  Each native status callback
dereferences the context pointer (trampolineDeref 0), and the call then
returns (nativeEnd). -/
def compactClosureTrace (ncalls : Nat) : List StackEv :=
  StackEv.allocSlot 0 :: StackEv.takeAddr 0 :: StackEv.freeSlot 0 ::
    StackEv.nativeStart ::
    (List.replicate ncalls (StackEv.trampolineDeref 0) ++ [StackEv.nativeEnd])

/-- Evaluation-order trace of Database::_upgrade when status is Some(f): the
context argument is built with the same
`status.map_or(ptr::null_mut(), |f| &f as *const _ as *mut c_void)` pattern
as in _compact, so the events are the same. -/
def upgradeClosureTrace (ncalls : Nat) : List StackEv :=
  StackEv.allocSlot 0 :: StackEv.takeAddr 0 :: StackEv.freeSlot 0 ::
    StackEv.nativeStart ::
    (List.replicate ncalls (StackEv.trampolineDeref 0) ++ [StackEv.nativeEnd])

/-- Slot s is live just before position i of the trace: its allocations before
i outnumber its frees before i. -/
def liveBefore (tr : List StackEv) (i : Nat) (s : Nat) : Bool :=
  Nat.blt ((tr.take i).count (StackEv.freeSlot s))
    ((tr.take i).count (StackEv.allocSlot s))

/-- Every trampoline dereference in the trace reads a live slot. -/
def derefsLiveB (tr : List StackEv) : Bool :=
  (List.range tr.length).all fun i =>
    match tr[i]? with
    | some (StackEv.trampolineDeref s) => liveBefore tr i s
    | _ => true

/-- Modelled from the spec: the Shared ownership form (Phantomcow's
reference-counted variant, exercised by the test program through an
Arc-wrapped Database) is not among the sources.  A database allocation is
shared by refcount references; dropping a reference runs the DatabasePtr drop
— the notmuch_database_destroy — only when it was the last one (spec sections
3 and 4.2). -/
structure SharedOwner where
  guard : DatabasePtr
  refcount : Nat
  deriving DecidableEq

/-- Drop one shared reference: the owner is destroyed exactly when the count
reaches zero. -/
def SharedOwner.dropRef (s : SharedOwner) : SharedOwner × List NativeCall :=
  if s.refcount ≤ 1 then ({ s with refcount := 0 }, DatabasePtr.drop s.guard)
  else ({ s with refcount := s.refcount - 1 }, [])

/-- Drop n shared references one after the other, collecting the native calls
issued along the way. -/
def SharedOwner.dropRefs : SharedOwner → Nat → SharedOwner × List NativeCall
  | s, 0 => (s, [])
  | s, n + 1 =>
    let r1 := s.dropRef
    let r2 := SharedOwner.dropRefs r1.1 n
    (r2.1, r1.2 ++ r2.2)

theorem flatten_replicate_nil (m : Nat) :
    (List.replicate m ([] : List NativeCall)).flatten = [] := by
  induction m with
  | zero => rfl
  | succ n ih => simp [List.replicate_succ, ih]

/-- C6: a resource guard owns exactly one native handle, and over a whole
lifetime — any number of moves (no copies exist, since neither guard derives
Copy or Clone) followed by the single destructor run — the native calls issued
are exactly one destroy of that handle, for the DatabasePtr and the
DirectoryPtr guard alike. -/
theorem guard_releases_handle_exactly_once (g : DatabasePtr) (g' : DirectoryPtr)
    (m m' : Nat) :
    DatabasePtr.lifetimeCalls g m = [NativeCall.databaseDestroy g.ptr]
    ∧ DirectoryPtr.lifetimeCalls g' m' = [NativeCall.directoryDestroy g'.ptr] := by
  constructor <;>
    simp [DatabasePtr.lifetimeCalls, DirectoryPtr.lifetimeCalls,
      DatabasePtr.drop, DirectoryPtr.drop, flatten_replicate_nil]

/-- C10: close does not consume the Database: the value it leaves is the one
it received, guard and pointer unchanged; its native calls contain no destroy
of the handle; and the close call followed by the eventual drop of the
Database issues the destroy of the handle exactly once. -/
theorem close_keeps_guard_and_destroy_runs_once (db : Database) (s : Status) :
    (Database.close db s).2.1 = db
    ∧ (Database.close db s).1.count (NativeCall.databaseDestroy db.handle.ptr) = 0
    ∧ ((Database.close db s).1 ++ Database.drop (Database.close db s).2.1).count
        (NativeCall.databaseDestroy db.handle.ptr) = 1 := by
  refine ⟨rfl, ?_, ?_⟩ <;>
    simp [Database.close, Database.drop, DatabasePtr.drop]

/-- C1: the context pointer handed to the blocking native call in _compact and
_upgrade is the address of the by-value parameter of the map_or lambda, whose
stack slot is freed when that lambda returns — before the native call starts.
A native invocation of the trampoline during the call therefore dereferences a
slot that is no longer live: the traces of both operations violate the
requirement that every trampoline dereference reads a live slot. -/
theorem compact_upgrade_context_pointer_dangles :
    derefsLiveB (compactClosureTrace 1) = false
    ∧ derefsLiveB (upgradeClosureTrace 1) = false := by
  decide

theorem dropRefs_keep (g : DatabasePtr) :
    ∀ j r, j ≤ r →
      SharedOwner.dropRefs { guard := g, refcount := r + 1 } j
        = ({ guard := g, refcount := r + 1 - j }, []) := by
  intro j
  induction j with
  | zero => intro r _; rfl
  | succ i ih =>
    intro r hjr
    cases r with
    | zero => omega
    | succ r0 =>
      have h1 : SharedOwner.dropRef { guard := g, refcount := r0 + 2 }
          = ({ guard := g, refcount := r0 + 1 }, []) := by
        simp [SharedOwner.dropRef]
      have h2 := ih r0 (by omega)
      simp [SharedOwner.dropRefs, h1, h2]

theorem dropRefs_all (g : DatabasePtr) :
    ∀ r, (SharedOwner.dropRefs { guard := g, refcount := r + 1 } (r + 1)).2
      = [NativeCall.databaseDestroy g.ptr] := by
  intro r
  induction r with
  | zero => rfl
  | succ r0 ih =>
    have h1 : SharedOwner.dropRef { guard := g, refcount := r0 + 2 }
        = ({ guard := g, refcount := r0 + 1 }, []) := by
      simp [SharedOwner.dropRef]
    have step : (SharedOwner.dropRefs { guard := g, refcount := r0 + 2 } (r0 + 2)).2
        = (SharedOwner.dropRef { guard := g, refcount := r0 + 2 }).2
          ++ (SharedOwner.dropRefs
              (SharedOwner.dropRef { guard := g, refcount := r0 + 2 }).1 (r0 + 1)).2 := rfl
    rw [step, h1]
    simpa using ih

/-- C8: with the derived resource holding one shared reference and the
original Database binding (and any clones) holding k + 1 more, dropping a
single reference — the original binding going out of scope — releases
nothing; dropping all but one reference still releases nothing; and over the
whole sequence of reference drops the underlying handle is destroyed exactly
once, by the very last drop. -/
theorem shared_owner_keeps_database_alive (g : DatabasePtr) (k : Nat) :
    (SharedOwner.dropRef { guard := g, refcount := k + 2 }).2 = []
    ∧ (SharedOwner.dropRefs { guard := g, refcount := k + 2 } (k + 1)).2 = []
    ∧ (SharedOwner.dropRefs { guard := g, refcount := k + 2 } (k + 2)).2
        = [NativeCall.databaseDestroy g.ptr] := by
  refine ⟨?_, ?_, ?_⟩
  · simp [SharedOwner.dropRef]
  · have := dropRefs_keep g (k + 1) (k + 1) (le_refl _)
    simp [this]
  · exact dropRefs_all g (k + 1)

/-- C3 counterexample: the path consisting of the single byte 255 is not valid
UTF-8, hence not present in any index, yet directory does not return the
promised Ok(None): path.as_ref().to_str().unwrap() panics before the native
lookup is reached. -/
theorem directory_panics_on_unencodable_path :
    Database.directory { handle := { ptr := 5 } } [255]
        { status := Status.success, outPtr := 0 } = Ret.panicked
    ∧ Database.directory { handle := { ptr := 5 } } [255]
        { status := Status.success, outPtr := 0 } ≠ Ret.ok none := by
  decide

/-- C3 amended: for every encodable path (valid UTF-8, no interior NUL),
Database::directory returns Ok(None) — a successful empty result, not an
error — exactly when the native lookup succeeds and reports a null entry; it
returns Err only when the native status itself is an error, and when the
entry exists it returns Ok(Some) of a Directory carrying this Database as
borrowed owner.  For a path whose conversion fails, directory panics on the
unwrap before the native lookup. -/
theorem directory_ok_none_or_panics (db : Database) (p : List Nat)
    (native : NativeOut) :
    ((encodePath p).isSome = true → native.status = Status.success →
      native.outPtr = 0 → Database.directory db p native = Ret.ok none)
    ∧ ((encodePath p).isSome = true → ∀ e, native.status = Status.error e →
      Database.directory db p native = Ret.err e)
    ∧ ((encodePath p).isSome = true → native.status = Status.success →
      native.outPtr ≠ 0 → Database.directory db p native
        = Ret.ok (some (Directory.from_ptr native.outPtr
            (OwnershipMarker.borrowed db.handle.ptr))))
    ∧ (encodePath p = none → Database.directory db p native = Ret.panicked) := by
  refine ⟨fun hp hs h0 => ?_, fun hp e hs => ?_, fun hp hs h0 => ?_, fun hn => ?_⟩
  · obtain ⟨enc, henc⟩ := Option.isSome_iff_exists.mp hp
    simp [Database.directory, henc, hs, h0]
  · obtain ⟨enc, henc⟩ := Option.isSome_iff_exists.mp hp
    simp [Database.directory, henc, hs]
  · obtain ⟨enc, henc⟩ := Option.isSome_iff_exists.mp hp
    simp [Database.directory, henc, hs, h0]
  · simp [Database.directory, hn]

/-- Witness for the amended C3: a concrete encodable absent path yields
Ok(None), and a concrete unencodable path panics. -/
theorem directory_ok_none_or_panics_witness :
    (encodePath [97]).isSome = true
    ∧ Database.directory { handle := { ptr := 5 } } [97]
        { status := Status.success, outPtr := 0 } = Ret.ok none
    ∧ encodePath [255] = none
    ∧ Database.directory { handle := { ptr := 5 } } [255]
        { status := Status.success, outPtr := 0 } = Ret.panicked := by
  refine ⟨by decide, ?_, by decide, ?_⟩
  · exact (directory_ok_none_or_panics { handle := { ptr := 5 } } [97]
      { status := Status.success, outPtr := 0 }).1 (by decide) rfl rfl
  · exact (directory_ok_none_or_panics { handle := { ptr := 5 } } [255]
      { status := Status.success, outPtr := 0 }).2.2.2 (by decide)

/-- C2 counterexample: with the native query-create call returning the null
pointer, Database::create_query still succeeds and wraps a guard around the
null handle — construction does not fail before the guard is created. -/
theorem create_query_wraps_null_guard :
    Database.create_query { handle := { ptr := 5 } } [97] 0
      = Ret.ok { handle := { ptr := 0 }, marker := OwnershipMarker.borrowed 5 } := by
  decide

/-- C2 amended: Database::directory does reject a null native handle before a
guard is created — a successful lookup writing null yields Ok(None), and any
Directory it does return has a non-null handle; but create_query and all_tags
wrap the native pointer in a guard unconditionally, even when it is null. -/
theorem null_handle_checked_only_in_directory (db : Database) :
    (∀ p native, (encodePath p).isSome = true → native.status = Status.success →
      native.outPtr = 0 → Database.directory db p native = Ret.ok none)
    ∧ (∀ p native d, Database.directory db p native = Ret.ok (some d) →
      d.handle.ptr ≠ 0)
    ∧ (∀ q ptr, (cstringNew q).isSome = true →
      Database.create_query db q ptr
        = Ret.ok (Query.from_ptr ptr (OwnershipMarker.borrowed db.handle.ptr)))
    ∧ (∀ t, Database.all_tags db t
        = Ret.ok (Tags.from_ptr t (OwnershipMarker.borrowed db.handle.ptr))) := by
  refine ⟨?_, ?_, ?_, ?_⟩
  · intro p native hp hs h0
    obtain ⟨enc, henc⟩ := Option.isSome_iff_exists.mp hp
    simp [Database.directory, henc, hs, h0]
  · intro p native d h
    unfold Database.directory at h
    split at h
    · exact Ret.noConfusion h
    · split at h
      · exact Ret.noConfusion h
      · split at h
        · exact Option.noConfusion (Ret.ok.inj h)
        · rename_i hptr
          have hd := Option.some.inj (Ret.ok.inj h)
          rw [← hd]
          simpa [Directory.from_ptr] using hptr
  · intro q ptr hq
    obtain ⟨enc, henc⟩ := Option.isSome_iff_exists.mp hq
    simp [Database.create_query, henc]
  · intro t
    rfl

/-- Witness for the amended C2 at concrete inputs. -/
theorem null_handle_checked_only_in_directory_witness :
    (cstringNew [97]).isSome = true
    ∧ Database.create_query { handle := { ptr := 5 } } [97] 3
        = Ret.ok (Query.from_ptr 3 (OwnershipMarker.borrowed 5)) := by
  refine ⟨by decide, ?_⟩
  exact (null_handle_checked_only_in_directory { handle := { ptr := 5 } }).2.2.1
    [97] 3 (by decide)

/-- C4 counterexample: all_tags with the native call failing (returning the
null pointer) still returns Ok, wrapping the null handle — the native failure
is not propagated as an error. -/
theorem all_tags_swallows_native_failure :
    Database.all_tags { handle := { ptr := 5 } } 0
      = Ret.ok { handle := { ptr := 0 }, marker := OwnershipMarker.borrowed 5 } := by
  decide

/-- C4 amended: the operations whose native call reports a status — create,
open, close, compact, upgrade, directory — try!-check it immediately and
return any failure unchanged as an error, with no retry; but create_query and
all_tags invoke pointer-returning native calls and wrap the result in Ok
without any check, so a null-pointer failure there is not surfaced. -/
theorem native_status_checked_immediately (e : ErrorKind) :
    (∀ p native, (encodePath p).isSome = true → native.status = Status.error e →
      Database.create p native = Ret.err e)
    ∧ (∀ p mode native, (encodePath p).isSome = true →
      native.status = Status.error e →
      Database.«open» p mode native = Ret.err e)
    ∧ (∀ db, (Database.close db (Status.error e)).2.2 = Ret.err e)
    ∧ (∀ p hs, (encodePath p).isSome = true →
      Database._compact p none hs (Status.error e) = Ret.err e)
    ∧ (∀ p b hs, (encodePath p).isSome = true → (encodePath b).isSome = true →
      Database._compact p (some b) hs (Status.error e) = Ret.err e)
    ∧ (∀ db hs, Database._upgrade db hs (Status.error e) = Ret.err e)
    ∧ (∀ db p native, (encodePath p).isSome = true →
      native.status = Status.error e →
      Database.directory db p native = Ret.err e)
    ∧ (∀ db q ptr, (cstringNew q).isSome = true →
      Database.create_query db q ptr
        = Ret.ok (Query.from_ptr ptr (OwnershipMarker.borrowed db.handle.ptr)))
    ∧ (∀ db t, Database.all_tags db t
        = Ret.ok (Tags.from_ptr t (OwnershipMarker.borrowed db.handle.ptr))) := by
  refine ⟨?_, ?_, ?_, ?_, ?_, ?_, ?_, ?_, ?_⟩
  · intro p native hp hs
    obtain ⟨enc, henc⟩ := Option.isSome_iff_exists.mp hp
    simp [Database.create, henc, hs]
  · intro p mode native hp hs
    obtain ⟨enc, henc⟩ := Option.isSome_iff_exists.mp hp
    simp [Database.«open», henc, hs]
  · intro db
    rfl
  · intro p hs hp
    obtain ⟨enc, henc⟩ := Option.isSome_iff_exists.mp hp
    simp [Database._compact, henc, asRet]
  · intro p b hs hp hb
    obtain ⟨enc, henc⟩ := Option.isSome_iff_exists.mp hp
    obtain ⟨encb, hencb⟩ := Option.isSome_iff_exists.mp hb
    simp [Database._compact, henc, hencb, asRet]
  · intro db hs
    rfl
  · intro db p native hp hs
    obtain ⟨enc, henc⟩ := Option.isSome_iff_exists.mp hp
    simp [Database.directory, henc, hs]
  · intro db q ptr hq
    obtain ⟨enc, henc⟩ := Option.isSome_iff_exists.mp hq
    simp [Database.create_query, henc]
  · intro db t
    rfl

/-- Witness for the amended C4 at a concrete failing create. -/
theorem native_status_checked_immediately_witness :
    (encodePath [97]).isSome = true
    ∧ Database.create [97]
        { status := Status.error (ErrorKind.backendFailure 3), outPtr := 0 }
      = Ret.err (ErrorKind.backendFailure 3) := by
  refine ⟨by decide, ?_⟩
  exact (native_status_checked_immediately (ErrorKind.backendFailure 3)).1 [97]
    { status := Status.error (ErrorKind.backendFailure 3), outPtr := 0 }
    (by decide) rfl

/-- C5 counterexample: a path with an interior NUL byte makes create panic on
the unwrap of CString::new instead of returning an InvalidArgument error. -/
theorem create_nul_path_panics :
    Database.create [97, 0, 98] { status := Status.success, outPtr := 7 }
        = Ret.panicked
    ∧ Database.create [97, 0, 98] { status := Status.success, outPtr := 7 }
        ≠ Ret.err ErrorKind.invalidArgument := by
  decide

/-- C5 amended: a path whose conversion fails — invalid UTF-8 for
Path::to_str, or an interior NUL for CString::new — makes create, open and
compact panic on the unwrap before the native call is reached; no
InvalidArgument error is returned. -/
theorem bad_path_panics (p : List Nat) (h : encodePath p = none) :
    (∀ native, Database.create p native = Ret.panicked)
    ∧ (∀ mode native, Database.«open» p mode native = Ret.panicked)
    ∧ (∀ bp hs native, Database._compact p bp hs native = Ret.panicked) := by
  refine ⟨?_, ?_, ?_⟩ <;> intros <;>
    simp [Database.create, Database.«open», Database._compact, h]

/-- Witness for the amended C5 at a concrete NUL-containing path. -/
theorem bad_path_panics_witness :
    encodePath [97, 0, 98] = none
    ∧ Database.«open» [97, 0, 98] DatabaseMode.readOnly
        { status := Status.success, outPtr := 7 } = Ret.panicked := by
  refine ⟨by decide, ?_⟩
  exact (bad_path_panics [97, 0, 98] (by decide)).2.1 DatabaseMode.readOnly
    { status := Status.success, outPtr := 7 }

/-- C9 counterexample: when the native library reports a root path that is not
valid UTF-8 (here the single byte 255), Database::path panics on the unwrap of
to_str instead of returning the path. -/
theorem path_panics_on_invalid_utf8 :
    Database.path { handle := { ptr := 5 } } [255] = none := by
  decide

/-- C9 amended: path() has no error return: for every native-reported root
path that is valid UTF-8 it returns exactly that path; but when the native
path is not valid UTF-8 the unwrap panics. -/
theorem path_returns_native_root_path (db : Database) (bs : List Nat) :
    (utf8Valid bs = true → Database.path db bs = some bs)
    ∧ (utf8Valid bs = false → Database.path db bs = none) := by
  constructor <;> intro h <;> simp [Database.path, cstrToStr, h]

/-- Witness for the amended C9 at a concrete valid native path. -/
theorem path_returns_native_root_path_witness :
    utf8Valid [104, 105] = true
    ∧ Database.path { handle := { ptr := 5 } } [104, 105] = some [104, 105] := by
  refine ⟨by decide, ?_⟩
  exact (path_returns_native_root_path { handle := { ptr := 5 } } [104, 105]).1
    (by decide)

/-- C7: a native invocation of the compact trampoline whose context pointer
holds a live closure recovers that closure and invokes it exactly once —
synchronously, within this one wrapper call, as witnessed by the singleton
invocation list — with the decoded status text; and a native invocation of
the upgrade trampoline likewise invokes its closure exactly once with the
progress value. -/
theorem trampoline_invokes_closure_once {σ τ δ : Type}
    (heap : Ptr → Option (FnMutStr σ)) (c : FnMutStr σ) (m : List Nat) (ctx : Ptr)
    (uheap : Ptr → Option (FnMutF64 τ δ)) (u : FnMutF64 τ δ) (uctx : Ptr)
    (prog : δ) (hc : heap ctx = some c) (hm : utf8Valid m = true)
    (hu : uheap uctx = some u) :
    compactWrapper heap m ctx = some ({ c with state := c.call m c.state }, [m])
    ∧ upgradeWrapper uheap uctx prog
        = some ({ u with state := u.call prog u.state }, [prog]) := by
  constructor <;> simp [compactWrapper, upgradeWrapper, hc, hu, cstrToStr, hm]

/-- Witness for C7: concrete closures (a message log and a call counter)
behind concrete context pointers, each invoked exactly once. -/
theorem trampoline_invokes_closure_once_witness :
    utf8Valid [104] = true
    ∧ compactWrapper
        (fun p => if p = 1
          then some (⟨[], fun ms s => s ++ [ms]⟩ : FnMutStr (List (List Nat)))
          else none) [104] 1
        = some (⟨[[104]], fun ms s => s ++ [ms]⟩, [[104]])
    ∧ upgradeWrapper
        (fun p => if p = 2 then some (⟨0, fun _ s => s + 1⟩ : FnMutF64 Nat Nat)
          else none) 2 50
        = some (⟨1, fun _ s => s + 1⟩, [50]) := by
  refine ⟨by decide, ?_, ?_⟩
  · exact (trampoline_invokes_closure_once
      (fun p => if p = 1
        then some (⟨[], fun ms s => s ++ [ms]⟩ : FnMutStr (List (List Nat)))
        else none)
      ⟨[], fun ms s => s ++ [ms]⟩ [104] 1
      (fun p => if p = 2 then some (⟨0, fun _ s => s + 1⟩ : FnMutF64 Nat Nat)
        else none)
      ⟨0, fun _ s => s + 1⟩ 2 50 rfl (by decide) rfl).1
  · exact (trampoline_invokes_closure_once
      (fun p => if p = 1
        then some (⟨[], fun ms s => s ++ [ms]⟩ : FnMutStr (List (List Nat)))
        else none)
      ⟨[], fun ms s => s ++ [ms]⟩ [104] 1
      (fun p => if p = 2 then some (⟨0, fun _ s => s + 1⟩ : FnMutF64 Nat Nat)
        else none)
      ⟨0, fun _ s => s + 1⟩ 2 50 rfl (by decide) rfl).2
